import Mathlib

/-!
Verification development for the slimta application layer
(`slimta/app/helpers.py` and `slimta/app/state.py`).

The Python code is shallowly embedded: configuration dictionaries become
structures of `Option` fields (a `none` field models an absent key, matching
the `key in dict` / `dict.get` idioms of the source), Python `dict` mutation
becomes a prepend-style association list, exceptions become `Except`, and the
external mail-delivery toolkit's objects (relays, queues, edges, lookup
drivers, the SpamAssassin client, pysasl hashing) are represented by the
constructor arguments the embedded code passes to them, with their externally
defined behaviors (regex matching, directory contents, credential
verification, spam scanning) taken as explicit function parameters.
-/

set_option autoImplicit false

/-- Python-dict read: first binding wins (newest binding is prepended). -/
def dictGet {α : Type} (d : List (String × α)) (k : String) : Option α :=
  match d with
  | [] => none
  | (k₀, v) :: rest => if k₀ = k then some v else dictGet rest k

/-- Python-dict write `d[k] = v`, modelled by prepending the new binding. -/
def dictSet {α : Type} (d : List (String × α)) (k : String) (v : α) :
    List (String × α) :=
  (k, v) :: d

/-- Number of occurrences of a name in a ghost construction log. -/
def countName (n : String) : List String → Nat
  | [] => 0
  | m :: rest => (if m = n then 1 else 0) + countName n rest

/-- Attribute sets returned by lookup tables (`{}` becomes `[]`). -/
abbrev Attrs := List (String × String)

/-- A delegated-directory lookup configuration fragment.  The directory's
contents are external to this repository; they are represented by the
`(address, authzid) → attributes` function the delegate implements. -/
structure DirLookupConfig where
  table : String → Option String → Option Attrs

/-- The lookup tables produced by the embedded code: a delegated directory
(`load_lookup`), a `DictLookup` over an address template, or a `RegexLookup`
holding `(pattern, attributes)` pairs in declared order. -/
inductive Lookup where
  | delegated (cfg : DirLookupConfig)
  | dict (map : List (String × Attrs)) (template : String)
  | regex (patterns : List (String × Attrs)) (template : String)

/-- The `'\x7baddress\x7d'` template string passed to the lookup drivers. -/
def addressTemplate : String := "\x7baddress\x7d"

/-- Modelled from the spec: `load_lookup` lives in the repository's
`slimta/app/lookup.py`, which is not under `src/`.  Per the spec's Lookup
Resolver contract it constructs and returns the delegated-directory lookup
table the fragment specifies, and returns null when the fragment specifies
none (an absent or empty fragment, modelled as `none`). -/
def load_lookup (cfg : Option DirLookupConfig) : Option Lookup :=
  cfg.map Lookup.delegated

/-- `lookup_address` on a constructed lookup table.  Regex matching is
performed by the external toolkit's `RegexLookup` driver, represented by the
`matcher pattern address` parameter; the `DictLookup` driver keyed on the
address template is a first-match association-list read. -/
def Lookup.lookup_address (matcher : String → String → Bool) :
    Lookup → String → Option String → Option Attrs
  | .delegated cfg, addr, authzid => cfg.table addr authzid
  | .dict m _, addr, _ => dictGet m addr
  | .regex pats _, addr, _ => (pats.find? (fun p => matcher p.1 addr)).map (·.2)

/-- `RuleHelpers._get_lookup(rules, lookup_section, list_section,
regex_section)`: key presence in `rules` is modelled by the three extracted
`Option` values.  The source tries the explicit lookup section, then the flat
allow-list (`dict.fromkeys(..., \x7b\x7d)` under the address template), then the
regex list (`add_regex(item, \x7b\x7d)` in declared order), and otherwise falls
through returning `None`. -/
def _get_lookup (lookupSection : Option DirLookupConfig)
    (listSection : Option (List String))
    (regexSection : Option (List String)) : Option Lookup :=
  match lookupSection with
  | some c => load_lookup (some c)
  | none =>
    match listSection with
    | some addrs => some (.dict (addrs.map fun a => (a, [])) addressTemplate)
    | none =>
      match regexSection with
      | some pats => some (.regex (pats.map fun p => (p, [])) addressTemplate)
      | none => none

/-- `rules.dnsbl`: a single host string, a host with an ignore list, or a
list of hosts (stored as-is by the constructor). -/
inductive DnsblSpec where
  | host (address : String)
  | hostIgnore (address : String) (ignore : List String)
  | group (hosts : List String)

/-- The `reject_spam` configuration section. -/
structure SpamConfig where
  type : Option String := none
  host : Option String := none
  port : Option Int := none

/-- The SpamAssassin client object, represented by the `(host, port)` pair
its constructor receives in `_get_spamassassin_object`. -/
structure Scanner where
  host : String
  port : Int

/-- `_get_spamassassin_object(options)`: host defaults to `'localhost'`,
port to `783`. -/
def _get_spamassassin_object (host : Option String) (port : Option Int) :
    Scanner :=
  { host := host.getD "localhost", port := port.getD 783 }

/-- `RuleHelpers._get_scanner(options)`: `None` options give no scanner;
the type defaults to `'spamassassin'`; any other type gives no scanner. -/
def _get_scanner (options : Option SpamConfig) : Option Scanner :=
  match options with
  | none => none
  | some o =>
    if o.type.getD "spamassassin" = "spamassassin" then
      some (_get_spamassassin_object o.host o.port)
    else
      none

/-- The `rules` configuration section consumed by `RuleHelpers.__init__`. -/
structure RulesConfig where
  banner : Option String := none
  dnsbl : Option DnsblSpec := none
  lookup_senders : Option DirLookupConfig := none
  only_senders : Option (List String) := none
  regex_senders : Option (List String) := none
  lookup_recipients : Option DirLookupConfig := none
  only_recipients : Option (List String) := none
  regex_recipients : Option (List String) := none
  lookup_credentials : Option DirLookupConfig := none
  passlib_config : Option String := none
  reject_spf : Option (List String) := none
  reject_spam : Option SpamConfig := none

/-- An empty `rules` section (`options.get('rules', \x7b\x7d)` default). -/
def RulesConfig.empty : RulesConfig := {}

/-- The options dictionary handed to `RuleHelpers.__init__`. -/
structure EdgeRuleOptions where
  rules : Option RulesConfig := none

/-- `fill_hostname_template(val)`: falsy values are returned unchanged;
otherwise the `\x7bfqdn\x7d` and `\x7bhostname\x7d` placeholders are formatted with the
machine names obtained from the socket library (passed in here). -/
def fill_hostname_template (fqdn hostname : String) (val : Option String) :
    Option String :=
  match val with
  | none => none
  | some s =>
    some ((s.replace "\x7bfqdn\x7d" fqdn).replace "\x7bhostname\x7d" hostname)

/-- The `RuleHelpers` object: the per-edge rule-set snapshot built once by
the constructor.  `password_hash` carries the `passlib_config` selector handed
to the external `get_hash`. -/
structure RuleHelpers where
  banner : Option String
  dnsbl : Option DnsblSpec
  lookup_senders : Option Lookup
  lookup_rcpts : Option Lookup
  lookup_creds : Option Lookup
  password_hash : Option String
  reject_spf : Option (List String)
  scanner : Option Scanner

/-- `RuleHelpers.__init__(options)`. -/
def RuleHelpers.build (fqdn hostname : String) (options : EdgeRuleOptions) :
    RuleHelpers :=
  let rules := options.rules.getD RulesConfig.empty
  { banner := fill_hostname_template fqdn hostname rules.banner
    dnsbl := rules.dnsbl
    lookup_senders :=
      _get_lookup rules.lookup_senders rules.only_senders rules.regex_senders
    lookup_rcpts :=
      _get_lookup rules.lookup_recipients rules.only_recipients
        rules.regex_recipients
    lookup_creds := load_lookup rules.lookup_credentials
    password_hash := rules.passlib_config
    reject_spf := rules.reject_spf
    scanner := _get_scanner rules.reject_spam }

/-- SASL credentials presented to `handle_auth`. -/
structure Creds where
  authcid : String
  authzid : Option String

/-- The `HashedIdentity(authcid, stored_hash, hash=self.password_hash)`
value built inside `check_credentials`. -/
structure HashedIdentity where
  authcid : String
  hash : String
  scheme : Option String

/-- `RuleHelpers.check_credentials(creds)`.  `creds.verify` is the external
pysasl verification, passed as the `verify` parameter. -/
def RuleHelpers.check_credentials (rh : RuleHelpers)
    (matcher : String → String → Bool)
    (verify : Creds → HashedIdentity → Bool) (creds : Creds) : Bool :=
  match rh.lookup_creds with
  | none => false
  | some lk =>
    match lk.lookup_address matcher creds.authcid creds.authzid with
    | none => false
    | some ret =>
      match dictGet ret "password" with
      | none => false
      | some pw =>
        verify creds
          { authcid := creds.authcid, hash := pw, scheme := rh.password_hash }

/-- `RuleHelpers.is_sender_ok(validators, sender)`; `auth` is the truthiness
of `validators.session.auth`. -/
def RuleHelpers.is_sender_ok (rh : RuleHelpers)
    (matcher : String → String → Bool) (auth : Bool) (sender : String) :
    Bool :=
  match rh.lookup_senders with
  | some lk => (lk.lookup_address matcher sender none).isSome
  | none => if rh.lookup_creds.isSome && !auth then false else true

/-- `RuleHelpers.is_recipient_ok(recipient)`. -/
def RuleHelpers.is_recipient_ok (rh : RuleHelpers)
    (matcher : String → String → Bool) (recipient : String) : Bool :=
  match rh.lookup_rcpts with
  | some lk => (lk.lookup_address matcher recipient none).isSome
  | none => true

/-- `RuleHelpers.reject_spam(data)`: delegates to the external scanner's
`scan` (passed in here) and returns the is-spam component, or `false` when
no scanner is configured. -/
def RuleHelpers.reject_spam (rh : RuleHelpers)
    (scan : Scanner → String → Bool × String) (data : String) : Bool :=
  match rh.scanner with
  | some s => (scan s data).1
  | none => false

/-- The error classes raised by the embedded code: `ConfigError` from the
external `config` package, `ConfigValidationError` from the repository's
validation module, and the interpreter-level attribute/index failures of
accessing a missing configuration attribute or an empty listener list. -/
inductive Err where
  | configError (msg : String)
  | configValidationError (msg : String)
  | attributeError
  | indexError
deriving DecidableEq

/-- One entry of a queue's `policy_options` list. -/
structure PolicyEntry where
  type : String
  hostname : Option String := none
  lookup : Option DirLookupConfig := none
  on_sender : Option Bool := none
  on_recipients : Option Bool := none
  mapping : List (String × String) := []
  host : Option String := none
  port : Option Int := none
  dkim : List (String × String) := []

/-- The policy objects appended by `add_queue_policies`, represented by the
constructor arguments the source passes to the external toolkit. -/
inductive Policy where
  | addDateHeader
  | addMessageIdHeader (hostname : Option String)
  | addReceivedHeader
  | recipientSplit
  | recipientDomainSplit
  | lookupPolicy (lookup : Lookup) (onSender onRcpts : Bool)
  | forward (mapping : List (String × String))
  | spamassassin (scanner : Scanner)
  | addDKIMHeader (dkim : List (String × String))

/-- The body of the `for policy in policy_options` loop of
`add_queue_policies`, applied to one entry: either the queue's policy list
extended by `queue.add_policy(...)`, or the raised error.  An entry whose
type matches no branch of the `if`/`elif` chain falls through and leaves the
queue unchanged. -/
def apply_queue_policy (queue : List Policy) (p : PolicyEntry) :
    Except Err (List Policy) :=
  if p.type = "add_date_header" then
    .ok (queue ++ [.addDateHeader])
  else if p.type = "add_messageid_header" then
    .ok (queue ++ [.addMessageIdHeader p.hostname])
  else if p.type = "add_received_header" then
    .ok (queue ++ [.addReceivedHeader])
  else if p.type = "recipient_split" then
    .ok (queue ++ [.recipientSplit])
  else if p.type = "recipient_domain_split" then
    .ok (queue ++ [.recipientDomainSplit])
  else if p.type = "lookup" then
    match load_lookup p.lookup with
    | some lk =>
      .ok (queue ++
        [.lookupPolicy lk (p.on_sender.getD false) (p.on_recipients.getD true)])
    | none => .error (.configValidationError "Incomplete lookup policy section")
  else if p.type = "forward" then
    .ok (queue ++ [.forward p.mapping])
  else if p.type = "spamassassin" then
    .ok (queue ++ [.spamassassin (_get_spamassassin_object p.host p.port)])
  else if p.type = "add_dkim_header" then
    .ok (queue ++ [.addDKIMHeader p.dkim])
  else
    .ok queue

/-- `add_queue_policies(queue, policy_options)`: the queue's accumulated
policy list after the loop, or the first raised error. -/
def add_queue_policies (queue : List Policy) :
    List PolicyEntry → Except Err (List Policy)
  | [] => .ok queue
  | p :: rest =>
    match apply_queue_policy queue p with
    | .ok queue₂ => add_queue_policies queue₂ rest
    | .error e => .error e

/-- The policy type names recognized by `add_queue_policies`. -/
def knownPolicyTypes : List String :=
  ["add_date_header", "add_messageid_header", "add_received_header",
   "recipient_split", "recipient_domain_split", "lookup", "forward",
   "spamassassin", "add_dkim_header"]

/-- The arithmetic delay expression configured as `retry.delay` and compiled
once by `eval('lambda x: ' + delay, math.__dict__)`; the math-namespace
function calls of the full evaluator are outside this embedding. -/
inductive DelayExpr where
  | const (n : Int)
  | varX
  | add (a b : DelayExpr)
  | sub (a b : DelayExpr)
  | mul (a b : DelayExpr)

/-- Evaluation of a compiled delay expression at an attempt count. -/
def DelayExpr.eval : DelayExpr → Int → Int
  | .const n, _ => n
  | .varX, x => x
  | .add a b, x => a.eval x + b.eval x
  | .sub a b, x => a.eval x - b.eval x
  | .mul a b, x => a.eval x * b.eval x

/-- The `retry` configuration section; `maximum` is the already-`int`-parsed
value of `retry.get('maximum', 0)`. -/
structure RetryConfig where
  maximum : Option Int := none
  delay : Option DelayExpr := none

/-- The envelope argument the retry subsystem passes to the backoff
function; it is never inspected. -/
structure Envelope

/-- `build_backoff_function(retry)`: a falsy `retry` (absent or empty,
modelled as `none`) yields `no_retries`, which always returns `None`;
otherwise the returned closure stops past `maximum` (default 0) and
otherwise evaluates the compiled delay expression (default `'300'`). -/
def build_backoff_function (retry : Option RetryConfig) :
    Envelope → Int → Option Int :=
  match retry with
  | none => fun _ _ => none
  | some r =>
    let maximum := r.maximum.getD 0
    let delay := r.delay.getD (.const 300)
    fun _ attempts =>
      if attempts > maximum then none else some (delay.eval attempts)

/-- A `relay.<name>` configuration section; `type` and `host` are attribute
reads, `port` and `executable` are `get` reads. -/
structure RelayOptions where
  type : String
  host : Option String := none
  port : Option Int := none
  executable : Option String := none

/-- A `queue.<name>` configuration section. -/
structure QueueOptions where
  type : Option String := none
  relay : Option String := none

/-- One entry of an edge's `listeners` list. -/
structure Listener where
  interface : Option String := none
  port : Option Int := none

/-- An `edge.<name>` configuration section. -/
structure EdgeOptions where
  type : String
  listeners : List Listener := []
  queue : Option String := none

/-- The loaded configuration tree: the named `relay`, `queue` and `edge`
sections; `none` models a falsy (absent or empty) section. -/
structure ConfigTree where
  relay : String → Option RelayOptions
  queue : String → Option QueueOptions
  edge : String → Option EdgeOptions

/-- The relay instances built by `_start_relay`, identified by the
constructor the source dispatches to plus a fresh instance id, so that
instance identity is expressible. -/
inductive Relay where
  | mx (id : Nat)
  | static (id : Nat) (host : String) (port : Int)
  | maildrop (id : Nat) (executable : Option String)

/-- The queue instances built by `_start_queue`; only the `celery` branch
constructs an object (the default branch stores `None`). -/
inductive Queue where
  | celery (id : Nat) (celeryApp : Nat) (relay : Relay) (name : String)

/-- The edge instances built by `_start_edge`; `started` records that
`new_edge.start()` ran. -/
inductive Edge where
  | smtp (id : Nat) (ip : String) (port : Int) (queue : Option Queue)
      (started : Bool)

/-- The mutable `SlimtaState` object: the memoization dictionaries, the
lazily-built celery application, a fresh-id supply for constructed
instances, and a ghost log of the relay names whose constructors actually
ran (used to state the constructed-at-most-once property; it does not alter
behavior). -/
structure SlimtaState where
  cfg : ConfigTree
  edges : List (String × Edge)
  queues : List (String × Option Queue)
  relays : List (String × Relay)
  celeryApp : Option Nat
  nextId : Nat
  relayLog : List String

/-- `if not options: options = getattr(...)`: a falsy explicit argument
falls back to the named configuration section. -/
def effOpts {α : Type} (options : Option α) (section₀ : Option α) :
    Option α :=
  match options with
  | some o => some o
  | none => section₀

/-- The memoized `celery` property: the application is created on first
access and reused afterwards. -/
def getCelery (st : SlimtaState) : Nat × SlimtaState :=
  match st.celeryApp with
  | some c => (c, st)
  | none =>
    (st.nextId,
     { st with celeryApp := some st.nextId, nextId := st.nextId + 1 })

/-- `SlimtaState._start_relay(name, options)`: memo hit, else dispatch on
the declared type (`mx`, `static`, `maildrop`), memoize and return; an
unknown type raises `ConfigError('relay type does not exist: ' + type)`. -/
def _start_relay (st : SlimtaState) (name : String)
    (options : Option RelayOptions) : Except Err (Relay × SlimtaState) :=
  match dictGet st.relays name with
  | some r => .ok (r, st)
  | none =>
    match effOpts options (st.cfg.relay name) with
    | none => .error .attributeError
    | some o =>
      if o.type = "mx" then
        .ok (Relay.mx st.nextId,
             { st with relays := dictSet st.relays name (Relay.mx st.nextId),
                       nextId := st.nextId + 1,
                       relayLog := name :: st.relayLog })
      else if o.type = "static" then
        match o.host with
        | none => .error .attributeError
        | some host =>
          .ok (Relay.static st.nextId host (o.port.getD 25),
               { st with relays := dictSet st.relays name
                           (Relay.static st.nextId host (o.port.getD 25)),
                         nextId := st.nextId + 1,
                         relayLog := name :: st.relayLog })
      else if o.type = "maildrop" then
        .ok (Relay.maildrop st.nextId o.executable,
             { st with relays := dictSet st.relays name
                         (Relay.maildrop st.nextId o.executable),
                       nextId := st.nextId + 1,
                       relayLog := name :: st.relayLog })
      else
        .error (.configError ("relay type does not exist: " ++ o.type))

/-- `SlimtaState._start_queue(name, options)`: memo hit (the stored value
may be `None` for a default queue and is returned as such), else a falsy or
`default`-typed section memoizes `None`; a `celery` section requires a relay
name, builds the relay via `_start_relay`, the celery app via the `celery`
property, constructs the queue, memoizes and returns it; any other type
raises `ConfigError('queue type does not exist: ' + type)`. -/
def _start_queue (st : SlimtaState) (name : String)
    (options : Option QueueOptions) :
    Except Err (Option Queue × SlimtaState) :=
  match dictGet st.queues name with
  | some q => .ok (q, st)
  | none =>
    match effOpts options (st.cfg.queue name) with
    | none => .ok (none, { st with queues := dictSet st.queues name none })
    | some o =>
      if o.type.getD "default" = "default" then
        .ok (none, { st with queues := dictSet st.queues name none })
      else if o.type.getD "default" = "celery" then
        match o.relay with
        | none =>
          .error (.configError "queue sections must be given a relay name")
        | some relayName =>
          if relayName = "" then
            .error (.configError "queue sections must be given a relay name")
          else
            match _start_relay st relayName none with
            | .error e => .error e
            | .ok (relay, st₂) =>
              match getCelery st₂ with
              | (capp, st₃) =>
                .ok (some (Queue.celery st₃.nextId capp relay name),
                     { st₃ with
                       queues := dictSet st₃.queues name
                         (some (Queue.celery st₃.nextId capp relay name)),
                       nextId := st₃.nextId + 1 })
      else
        .error
          (.configError ("queue type does not exist: " ++ o.type.getD "default"))

/-- `SlimtaState._start_edge(name, options)`: memo hit, else an `smtp`
section reads `listeners[0]` (interface default `'127.0.0.1'`, port default
`25`), requires a queue name, obtains the queue via `_start_queue`,
constructs and starts the edge, memoizes and returns it; an unknown type
raises `ConfigError('edge type does not exist: ' + type)`. -/
def _start_edge (st : SlimtaState) (name : String)
    (options : Option EdgeOptions) : Except Err (Edge × SlimtaState) :=
  match dictGet st.edges name with
  | some e => .ok (e, st)
  | none =>
    match effOpts options (st.cfg.edge name) with
    | none => .error .attributeError
    | some o =>
      if o.type = "smtp" then
        match o.listeners with
        | [] => .error .indexError
        | l₀ :: _ =>
          match o.queue with
          | none =>
            .error (.configError "edge sections must be given a queue name")
          | some queueName =>
            if queueName = "" then
              .error (.configError "edge sections must be given a queue name")
            else
              match _start_queue st queueName none with
              | .error e => .error e
              | .ok (queue, st₂) =>
                .ok (Edge.smtp st₂.nextId (l₀.interface.getD "127.0.0.1")
                       (l₀.port.getD 25) queue true,
                     { st₂ with
                       edges := dictSet st₂.edges name
                         (Edge.smtp st₂.nextId (l₀.interface.getD "127.0.0.1")
                           (l₀.port.getD 25) queue true),
                       nextId := st₂.nextId + 1 })
      else
        .error (.configError ("edge type does not exist: " ++ o.type))

/-- The fresh `SlimtaState.__init__` state over a loaded configuration. -/
def initialState (cfg : ConfigTree) : SlimtaState :=
  { cfg := cfg, edges := [], queues := [], relays := [], celeryApp := none,
    nextId := 0, relayLog := [] }

/-- One builder invocation: the three `_start_*` methods with arbitrary
arguments. -/
inductive Call where
  | relay (name : String) (options : Option RelayOptions)
  | queue (name : String) (options : Option QueueOptions)
  | edge (name : String) (options : Option EdgeOptions)

/-- The state after one builder invocation; a raised error leaves the state
as it was (every raise in the source happens before any mutation of the
current call, and a failing inner `_start_relay` call mutates nothing). -/
def runCall (st : SlimtaState) : Call → SlimtaState
  | .relay n o =>
    match _start_relay st n o with
    | .ok (_, st₂) => st₂
    | .error _ => st
  | .queue n o =>
    match _start_queue st n o with
    | .ok (_, st₂) => st₂
    | .error _ => st
  | .edge n o =>
    match _start_edge st n o with
    | .ok (_, st₂) => st₂
    | .error _ => st

/-- The state after a sequence of builder invocations. -/
def runCalls (st : SlimtaState) (calls : List Call) : SlimtaState :=
  calls.foldl runCall st

/-- Each relay name has been constructed at most as often as it is present
in the memo dictionary: the inductive invariant tying the ghost construction
log to the `relays` dictionary. -/
def RelayInv (st : SlimtaState) : Prop :=
  ∀ n, countName n st.relayLog ≤
    (if (dictGet st.relays n).isSome then 1 else 0)

/-- A configuration tree with no sections, for concrete evaluations. -/
def wCfg : ConfigTree :=
  { relay := fun _ => none, queue := fun _ => none, edge := fun _ => none }

/-- The fresh state over the empty configuration. -/
def wState0 : SlimtaState := initialState wCfg

/-- The state after building the default queue named `main`. -/
def wState1 : SlimtaState :=
  { wState0 with queues := dictSet wState0.queues "main" none }

/-- The state after building the default queue named `q`. -/
def wStateQ : SlimtaState :=
  { wState0 with queues := dictSet wState0.queues "q" none }

/-- A concrete `rules` section with a flat sender allow-list and nothing
else. -/
def wRules : RulesConfig := { only_senders := some ["a@b"] }

/-- The rule set built from `wRules`. -/
def wRH : RuleHelpers := RuleHelpers.build "fq" "hn" { rules := some wRules }

/-- A concrete `rules` section whose `reject_spam` declares an unknown
scanner type. -/
def wSpamRules : RulesConfig :=
  { reject_spam := some { type := some "clamav" } }

/-- The rule set built from `wSpamRules`. -/
def wRH10 : RuleHelpers :=
  RuleHelpers.build "fq" "hn" { rules := some wSpamRules }

/-- A policy entry with an unrecognized type name. -/
def wBogusEntry : PolicyEntry := { type := "bogus" }

/-- A well-formed `add_date_header` policy entry. -/
def wDateEntry : PolicyEntry := { type := "add_date_header" }

/-- A `lookup` policy entry whose lookup sub-configuration resolves to no
table. -/
def wBadLookupEntry : PolicyEntry := { type := "lookup" }

/-- A concrete smtp edge section naming queue `q`. -/
def wEdgeOpts : EdgeOptions :=
  { type := "smtp", listeners := [{}], queue := some "q" }

/-- A configuration tree whose queue section `badq` declares an unknown
queue type. -/
def wCfgBadQueue : ConfigTree :=
  { relay := fun _ => none,
    queue := fun n =>
      if n = "badq" then some { type := some "bogustype" } else none,
    edge := fun _ => none }

/-- The fresh state over `wCfgBadQueue`. -/
def wStateBQ : SlimtaState := initialState wCfgBadQueue

/-! ### Dictionary, log and invariant lemmas -/

theorem dictGet_dictSet_self {α : Type} (d : List (String × α)) (k : String)
    (v : α) : dictGet (dictSet d k v) k = some v := by
  simp [dictGet, dictSet]

theorem dictGet_dictSet_ne {α : Type} (d : List (String × α)) (k k₂ : String)
    (v : α) (h : ¬ k = k₂) : dictGet (dictSet d k v) k₂ = dictGet d k₂ := by
  simp [dictGet, dictSet, h]

theorem countName_cons (m n : String) (l : List String) :
    countName n (m :: l) = (if m = n then 1 else 0) + countName n l := rfl

theorem relayInv_of_eq {st st₂ : SlimtaState} (hInv : RelayInv st)
    (hr : st₂.relays = st.relays) (hl : st₂.relayLog = st.relayLog) :
    RelayInv st₂ := by
  unfold RelayInv at hInv ⊢
  intro n
  rw [hr, hl]
  exact hInv n

theorem relayInv_build {st : SlimtaState} {name : String} (r : Relay)
    (hInv : RelayInv st) (hm : dictGet st.relays name = none) :
    RelayInv { st with relays := dictSet st.relays name r,
                       nextId := st.nextId + 1,
                       relayLog := name :: st.relayLog } := by
  unfold RelayInv at hInv ⊢
  intro n
  show countName n (name :: st.relayLog) ≤
    if (dictGet (dictSet st.relays name r) n).isSome then 1 else 0
  rw [countName_cons]
  by_cases hn : name = n
  · subst hn
    have h0 : countName name st.relayLog = 0 := by
      have h₁ := hInv name
      rw [hm] at h₁
      simpa using h₁
    rw [dictGet_dictSet_self]
    simp [h0]
  · rw [dictGet_dictSet_ne _ _ _ _ hn]
    simpa [hn] using hInv n

theorem getCelery_relayInv {st : SlimtaState} (hInv : RelayInv st) :
    RelayInv (getCelery st).2 := by
  unfold getCelery
  cases hc : st.celeryApp with
  | none => exact relayInv_of_eq hInv rfl rfl
  | some c => exact hInv

theorem start_relay_relayInv {st st₂ : SlimtaState} {name : String}
    {o : Option RelayOptions} {r : Relay} (hInv : RelayInv st)
    (h : _start_relay st name o = .ok (r, st₂)) : RelayInv st₂ := by
  unfold _start_relay at h
  split at h
  · simp only [Except.ok.injEq, Prod.mk.injEq] at h
    obtain ⟨-, rfl⟩ := h
    exact hInv
  · rename_i hm
    split at h
    · exact absurd h (by simp)
    · split at h
      · simp only [Except.ok.injEq, Prod.mk.injEq] at h
        obtain ⟨-, rfl⟩ := h
        exact relayInv_build _ hInv hm
      · split at h
        · split at h
          · exact absurd h (by simp)
          · simp only [Except.ok.injEq, Prod.mk.injEq] at h
            obtain ⟨-, rfl⟩ := h
            exact relayInv_build _ hInv hm
        · split at h
          · simp only [Except.ok.injEq, Prod.mk.injEq] at h
            obtain ⟨-, rfl⟩ := h
            exact relayInv_build _ hInv hm
          · exact absurd h (by simp)

theorem start_queue_relayInv {st st₂ : SlimtaState} {name : String}
    {o : Option QueueOptions} {q : Option Queue} (hInv : RelayInv st)
    (h : _start_queue st name o = .ok (q, st₂)) : RelayInv st₂ := by
  unfold _start_queue at h
  split at h
  · simp only [Except.ok.injEq, Prod.mk.injEq] at h
    obtain ⟨-, rfl⟩ := h
    exact hInv
  · split at h
    · simp only [Except.ok.injEq, Prod.mk.injEq] at h
      obtain ⟨-, rfl⟩ := h
      exact relayInv_of_eq hInv rfl rfl
    · split at h
      · simp only [Except.ok.injEq, Prod.mk.injEq] at h
        obtain ⟨-, rfl⟩ := h
        exact relayInv_of_eq hInv rfl rfl
      · split at h
        · split at h
          · exact absurd h (by simp)
          · split at h
            · exact absurd h (by simp)
            · split at h
              · exact absurd h (by simp)
              · rename_i relay st₄ hrel
                simp only [Except.ok.injEq, Prod.mk.injEq] at h
                obtain ⟨-, rfl⟩ := h
                exact relayInv_of_eq
                  (getCelery_relayInv (start_relay_relayInv hInv hrel)) rfl rfl
        · exact absurd h (by simp)

theorem start_edge_relayInv {st st₂ : SlimtaState} {name : String}
    {o : Option EdgeOptions} {e : Edge} (hInv : RelayInv st)
    (h : _start_edge st name o = .ok (e, st₂)) : RelayInv st₂ := by
  unfold _start_edge at h
  split at h
  · simp only [Except.ok.injEq, Prod.mk.injEq] at h
    obtain ⟨-, rfl⟩ := h
    exact hInv
  · split at h
    · exact absurd h (by simp)
    · split at h
      · split at h
        · exact absurd h (by simp)
        · split at h
          · exact absurd h (by simp)
          · split at h
            · exact absurd h (by simp)
            · split at h
              · exact absurd h (by simp)
              · rename_i queue st₄ hq
                simp only [Except.ok.injEq, Prod.mk.injEq] at h
                obtain ⟨-, rfl⟩ := h
                exact relayInv_of_eq (start_queue_relayInv hInv hq) rfl rfl
      · exact absurd h (by simp)

theorem runCall_relayInv {st : SlimtaState} (c : Call) (hInv : RelayInv st) :
    RelayInv (runCall st c) := by
  cases c with
  | relay n o =>
    show RelayInv (match _start_relay st n o with
      | .ok (_, st₂) => st₂
      | .error _ => st)
    split
    · rename_i r st₂ h
      exact start_relay_relayInv hInv h
    · exact hInv
  | queue n o =>
    show RelayInv (match _start_queue st n o with
      | .ok (_, st₂) => st₂
      | .error _ => st)
    split
    · rename_i q st₂ h
      exact start_queue_relayInv hInv h
    · exact hInv
  | edge n o =>
    show RelayInv (match _start_edge st n o with
      | .ok (_, st₂) => st₂
      | .error _ => st)
    split
    · rename_i e st₂ h
      exact start_edge_relayInv hInv h
    · exact hInv

theorem runCalls_relayInv (calls : List Call) (st : SlimtaState)
    (hInv : RelayInv st) : RelayInv (runCalls st calls) := by
  induction calls generalizing st with
  | nil => exact hInv
  | cons c rest ih => exact ih (runCall st c) (runCall_relayInv c hInv)

theorem initialState_relayInv (cfg : ConfigTree) :
    RelayInv (initialState cfg) := by
  unfold RelayInv initialState
  intro n
  simp [countName]

theorem start_queue_sets {st st₂ : SlimtaState} {name : String}
    {o : Option QueueOptions} {q : Option Queue}
    (h : _start_queue st name o = .ok (q, st₂)) :
    dictGet st₂.queues name = some q := by
  unfold _start_queue at h
  split at h
  · rename_i q₀ hm
    simp only [Except.ok.injEq, Prod.mk.injEq] at h
    obtain ⟨rfl, rfl⟩ := h
    exact hm
  · split at h
    · simp only [Except.ok.injEq, Prod.mk.injEq] at h
      obtain ⟨rfl, rfl⟩ := h
      exact dictGet_dictSet_self _ _ _
    · split at h
      · simp only [Except.ok.injEq, Prod.mk.injEq] at h
        obtain ⟨rfl, rfl⟩ := h
        exact dictGet_dictSet_self _ _ _
      · split at h
        · split at h
          · exact absurd h (by simp)
          · split at h
            · exact absurd h (by simp)
            · split at h
              · exact absurd h (by simp)
              · simp only [Except.ok.injEq, Prod.mk.injEq] at h
                obtain ⟨rfl, rfl⟩ := h
                exact dictGet_dictSet_self _ _ _
        · exact absurd h (by simp)

theorem start_edge_sets {st st₂ : SlimtaState} {name : String}
    {o : Option EdgeOptions} {e : Edge}
    (h : _start_edge st name o = .ok (e, st₂)) :
    dictGet st₂.edges name = some e := by
  unfold _start_edge at h
  split at h
  · rename_i e₀ hm
    simp only [Except.ok.injEq, Prod.mk.injEq] at h
    obtain ⟨rfl, rfl⟩ := h
    exact hm
  · split at h
    · exact absurd h (by simp)
    · split at h
      · split at h
        · exact absurd h (by simp)
        · split at h
          · exact absurd h (by simp)
          · split at h
            · exact absurd h (by simp)
            · split at h
              · exact absurd h (by simp)
              · simp only [Except.ok.injEq, Prod.mk.injEq] at h
                obtain ⟨rfl, rfl⟩ := h
                exact dictGet_dictSet_self _ _ _
      · exact absurd h (by simp)

/-! ### Claim theorems -/

/-- Claim C1: calling `_start_queue` twice with the same name returns the
identical instance both times with no side effects on the second call (the
second call returns the very same queue value and leaves the state
untouched, whatever options are passed), and across any sequence of builder
invocations starting from a fresh state, each named relay's constructor runs
at most once, however many queues or calls reference it. -/
theorem start_queue_memoization_relay_once :
    (∀ (st : SlimtaState) (name : String) (o₁ o₂ : Option QueueOptions)
       (q : Option Queue) (st₂ : SlimtaState),
       _start_queue st name o₁ = .ok (q, st₂) →
       _start_queue st₂ name o₂ = .ok (q, st₂))
    ∧ (∀ (cfg : ConfigTree) (calls : List Call) (n : String),
       countName n (runCalls (initialState cfg) calls).relayLog ≤ 1) := by
  constructor
  · intro st name o₁ o₂ q st₂ h
    have hq := start_queue_sets h
    unfold _start_queue
    rw [hq]
  · intro cfg calls n
    have hInv : RelayInv (runCalls (initialState cfg) calls) :=
      runCalls_relayInv calls (initialState cfg) (initialState_relayInv cfg)
    exact le_trans (hInv n) (by split <;> simp)

/-- Witness for C1 at a concrete state: building the default queue `main`
once and calling again returns the same instance and the same state. -/
theorem start_queue_memoization_relay_once_witness :
    _start_queue wState1 "main" none = .ok (none, wState1) :=
  start_queue_memoization_relay_once.1 wState0 "main" none none none wState1
    (by rfl)

/-- Claim C2: with a sender lookup configured, `is_sender_ok` holds iff the
sender is present in that lookup, whatever the authentication state; with no
sender lookup but a credential lookup, it equals the session's
authentication state; with neither, it is always true.  Moreover a rules
configuration omitting all three sender keys builds a rule set with no
sender lookup. -/
theorem is_sender_ok_spec (rh : RuleHelpers)
    (matcher : String → String → Bool) (auth : Bool) (sender : String) :
    (∀ lk, rh.lookup_senders = some lk →
        rh.is_sender_ok matcher auth sender =
          (lk.lookup_address matcher sender none).isSome)
    ∧ (rh.lookup_senders = none → rh.lookup_creds.isSome = true →
        rh.is_sender_ok matcher auth sender = auth)
    ∧ (rh.lookup_senders = none → rh.lookup_creds = none →
        rh.is_sender_ok matcher auth sender = true)
    ∧ (∀ (fqdn hostname : String) (rules : RulesConfig),
        rules.lookup_senders = none → rules.only_senders = none →
        rules.regex_senders = none →
        (RuleHelpers.build fqdn hostname
          { rules := some rules }).lookup_senders = none) := by
  refine ⟨?_, ?_, ?_, ?_⟩
  · intro lk hlk
    unfold RuleHelpers.is_sender_ok
    rw [hlk]
  · intro hs hc
    unfold RuleHelpers.is_sender_ok
    rw [hs, hc]
    cases auth <;> simp
  · intro hs hc
    unfold RuleHelpers.is_sender_ok
    rw [hs, hc]
    simp
  · intro fqdn hostname rules h₁ h₂ h₃
    simp [RuleHelpers.build, _get_lookup, h₁, h₂, h₃]

/-- Witness for C2 at a concrete rule set built from a flat sender
allow-list. -/
theorem is_sender_ok_spec_witness :
    wRH.is_sender_ok (fun _ _ => false) false "a@b" =
      ((Lookup.dict [("a@b", [])] addressTemplate).lookup_address
        (fun _ _ => false) "a@b" none).isSome :=
  (is_sender_ok_spec wRH (fun _ _ => false) false "a@b").1
    (Lookup.dict [("a@b", [])] addressTemplate) (by rfl)

/-- Claim C3: with no retry configuration, the backoff function returns
"stop" (`none`) for every attempt count; with a retry configuration, it
returns `none` exactly when `attempts > maximum` (`maximum` defaulting to 0)
and otherwise the configured delay expression (defaulting to the constant
300) evaluated at `attempts`; in particular for maximum 3 and delay `x*2`,
it yields 4 at 2 attempts and `none` at 4 attempts. -/
theorem build_backoff_function_spec :
    (∀ (e : Envelope) (attempts : Int),
        build_backoff_function none e attempts = none)
    ∧ (∀ (r : RetryConfig) (e : Envelope) (attempts : Int),
        attempts > r.maximum.getD 0 →
        build_backoff_function (some r) e attempts = none)
    ∧ (∀ (r : RetryConfig) (e : Envelope) (attempts : Int),
        ¬ attempts > r.maximum.getD 0 →
        build_backoff_function (some r) e attempts =
          some ((r.delay.getD (.const 300)).eval attempts))
    ∧ build_backoff_function
        (some { maximum := some 3, delay := some (.mul .varX (.const 2)) })
        ⟨⟩ 2 = some 4
    ∧ build_backoff_function
        (some { maximum := some 3, delay := some (.mul .varX (.const 2)) })
        ⟨⟩ 4 = none := by
  refine ⟨fun _ _ => rfl, ?_, ?_, by rfl, by rfl⟩
  · intro r e attempts h
    simp [build_backoff_function, h]
  · intro r e attempts h
    simp [build_backoff_function, h]

/-- Witness for C3: with `maximum = 1` and the default delay, attempt 2
stops and attempt 1 waits 300 seconds. -/
theorem build_backoff_function_spec_witness :
    build_backoff_function (some { maximum := some 1, delay := none }) ⟨⟩ 2 =
      none
    ∧ build_backoff_function (some { maximum := some 1, delay := none }) ⟨⟩ 1 =
      some 300 :=
  ⟨build_backoff_function_spec.2.1 { maximum := some 1, delay := none } ⟨⟩ 2
    (by decide),
   build_backoff_function_spec.2.2.1 { maximum := some 1, delay := none } ⟨⟩ 1
    (by decide)⟩

/-- Claim C4: `_get_lookup` honors only the first present key in the
precedence order explicit lookup config, flat allow-list, regex allow-list
(the result is independent of any later key), and resolves to no lookup when
none is present. -/
theorem get_lookup_precedence :
    (∀ (c : DirLookupConfig) (l r : Option (List String)),
        _get_lookup (some c) l r = some (.delegated c))
    ∧ (∀ (l : List String) (r : Option (List String)),
        _get_lookup none (some l) r =
          some (.dict (l.map fun a => (a, [])) addressTemplate))
    ∧ (∀ (r : List String),
        _get_lookup none none (some r) =
          some (.regex (r.map fun p => (p, [])) addressTemplate))
    ∧ _get_lookup none none none = none :=
  ⟨fun _ _ _ => rfl, fun _ _ => rfl, fun _ => rfl, rfl⟩

/-- Claim C5: `check_credentials` fails closed — it returns false when no
credential lookup is configured, when the lookup yields no result for the
identity, or when the result lacks a stored `password` attribute; otherwise
it returns exactly the external verification of the supplied credential
against the stored hash under the configured hashing scheme. -/
theorem check_credentials_fail_closed (rh : RuleHelpers)
    (matcher : String → String → Bool)
    (verify : Creds → HashedIdentity → Bool) (creds : Creds) :
    (rh.lookup_creds = none →
        rh.check_credentials matcher verify creds = false)
    ∧ (∀ lk, rh.lookup_creds = some lk →
        lk.lookup_address matcher creds.authcid creds.authzid = none →
        rh.check_credentials matcher verify creds = false)
    ∧ (∀ lk ret, rh.lookup_creds = some lk →
        lk.lookup_address matcher creds.authcid creds.authzid = some ret →
        dictGet ret "password" = none →
        rh.check_credentials matcher verify creds = false)
    ∧ (∀ lk ret pw, rh.lookup_creds = some lk →
        lk.lookup_address matcher creds.authcid creds.authzid = some ret →
        dictGet ret "password" = some pw →
        rh.check_credentials matcher verify creds =
          verify creds { authcid := creds.authcid, hash := pw,
                         scheme := rh.password_hash }) := by
  refine ⟨?_, ?_, ?_, ?_⟩
  · intro h
    unfold RuleHelpers.check_credentials
    rw [h]
  · intro lk h₁ h₂
    unfold RuleHelpers.check_credentials
    simp only [h₁, h₂]
  · intro lk ret h₁ h₂ h₃
    unfold RuleHelpers.check_credentials
    simp only [h₁, h₂, h₃]
  · intro lk ret pw h₁ h₂ h₃
    unfold RuleHelpers.check_credentials
    simp only [h₁, h₂, h₃]

/-- Witness for C5 at a concrete rule set with no credential lookup. -/
theorem check_credentials_fail_closed_witness :
    wRH.check_credentials (fun _ _ => false) (fun _ _ => true)
      { authcid := "u", authzid := none } = false :=
  (check_credentials_fail_closed wRH (fun _ _ => false) (fun _ _ => true)
    { authcid := "u", authzid := none }).1 (by rfl)

theorem add_queue_policies_cons (queue : List Policy) (p : PolicyEntry)
    (rest : List PolicyEntry) :
    add_queue_policies queue (p :: rest) =
      match apply_queue_policy queue p with
      | .ok queue₂ => add_queue_policies queue₂ rest
      | .error e => .error e := by
  simp [add_queue_policies]

theorem add_queue_policies_append (pre : List PolicyEntry)
    (queue queue₂ : List Policy) (rest : List PolicyEntry)
    (h : add_queue_policies queue pre = .ok queue₂) :
    add_queue_policies queue (pre ++ rest) =
      add_queue_policies queue₂ rest := by
  induction pre generalizing queue with
  | nil =>
    simp only [add_queue_policies, Except.ok.injEq] at h
    subst h
    simp
  | cons p ps ih =>
    rw [add_queue_policies_cons] at h
    rw [List.cons_append, add_queue_policies_cons]
    cases happ : apply_queue_policy queue p with
    | ok queue₃ =>
      rw [happ] at h
      exact ih queue₃ h
    | error e =>
      rw [happ] at h
      exact absurd h (by simp)

/-- Counterexample to C6: a policy list containing only an entry of the
unknown type `bogus` builds without any error, returning the queue's
policies unchanged — no fatal configuration error is raised. -/
theorem unknown_policy_type_no_error :
    add_queue_policies [] [wBogusEntry] = .ok [] := rfl

/-- Claim C6 (amended): for every queue policy list entry whose type is not
one of the known built-in policy type names, building the policy chain
silently skips that entry and proceeds with the remaining entries; no error
is raised for it. -/
theorem unknown_policy_type_skipped (queue : List Policy) (p : PolicyEntry)
    (rest : List PolicyEntry) (h : p.type ∉ knownPolicyTypes) :
    add_queue_policies queue (p :: rest) = add_queue_policies queue rest := by
  simp only [knownPolicyTypes, List.mem_cons, List.mem_singleton, not_or,
    List.not_mem_nil, or_false] at h
  obtain ⟨h₁, h₂, h₃, h₄, h₅, h₆, h₇, h₈, h₉⟩ := h
  have hap : apply_queue_policy queue p = .ok queue := by
    simp [apply_queue_policy, h₁, h₂, h₃, h₄, h₅, h₆, h₇, h₈, h₉]
  rw [add_queue_policies_cons, hap]

/-- Witness for the amended C6 at a concrete unknown entry. -/
theorem unknown_policy_type_skipped_witness :
    add_queue_policies [Policy.addReceivedHeader]
      (wBogusEntry :: [wDateEntry]) =
    add_queue_policies [Policy.addReceivedHeader] [wDateEntry] :=
  unknown_policy_type_skipped [Policy.addReceivedHeader] wBogusEntry
    [wDateEntry] (by decide)

/-- Claim C7: a `lookup` policy entry whose lookup sub-configuration
resolves to no table makes `add_queue_policies` raise
`ConfigValidationError('Incomplete lookup policy section')` immediately
while processing that entry — whatever entries follow it — provided the
entries before it processed without error. -/
theorem lookup_policy_fail_fast (queue queue₂ : List Policy)
    (pre suf : List PolicyEntry) (bad : PolicyEntry)
    (hpre : add_queue_policies queue pre = .ok queue₂)
    (ht : bad.type = "lookup") (hl : load_lookup bad.lookup = none) :
    add_queue_policies queue (pre ++ bad :: suf) =
      .error (.configValidationError "Incomplete lookup policy section") := by
  rw [add_queue_policies_append pre queue queue₂ (bad :: suf) hpre,
      add_queue_policies_cons]
  have hap : apply_queue_policy queue₂ bad =
      .error (.configValidationError "Incomplete lookup policy section") := by
    unfold apply_queue_policy
    rw [ht]
    simp [hl]
  rw [hap]

/-- Witness for C7: a bad lookup entry between two well-formed entries
fails fast with the validation error. -/
theorem lookup_policy_fail_fast_witness :
    add_queue_policies [] ([wDateEntry] ++ wBadLookupEntry :: [wDateEntry]) =
      .error (.configValidationError "Incomplete lookup policy section") :=
  lookup_policy_fail_fast [] [Policy.addDateHeader] [wDateEntry] [wDateEntry]
    wBadLookupEntry (by rfl) (by rfl) (by rfl)

/-- Counterexample to C8: building the relay section named `myrelay` with
the unknown type `bogus` raises `ConfigError('relay type does not exist:
bogus')`, whose message does not contain the offending section name
`myrelay`. -/
theorem unknown_type_error_lacks_section_name :
    _start_relay wState0 "myrelay" (some { type := "bogus" }) =
      .error (.configError "relay type does not exist: bogus")
    ∧ ¬ ("myrelay".data <:+: "relay type does not exist: bogus".data) :=
  ⟨rfl, by decide⟩

/-- Claim C8 (amended): for every relay, queue, or edge section whose
declared type is unknown, construction raises a fatal configuration error
whose message includes the bad type name. -/
theorem unknown_type_error_names_type (st : SlimtaState) (name : String)
    (o : RelayOptions) (qo : QueueOptions) (qt : String) (eo : EdgeOptions)
    (hm : dictGet st.relays name = none)
    (ht : o.type ∉ (["mx", "static", "maildrop"] : List String))
    (hmq : dictGet st.queues name = none) (hqt : qo.type = some qt)
    (hq₁ : ¬ qt = "default") (hq₂ : ¬ qt = "celery")
    (hme : dictGet st.edges name = none) (hte : ¬ eo.type = "smtp") :
    _start_relay st name (some o) =
      .error (.configError ("relay type does not exist: " ++ o.type))
    ∧ o.type.data <:+: ("relay type does not exist: " ++ o.type).data
    ∧ _start_queue st name (some qo) =
      .error (.configError ("queue type does not exist: " ++ qt))
    ∧ qt.data <:+: ("queue type does not exist: " ++ qt).data
    ∧ _start_edge st name (some eo) =
      .error (.configError ("edge type does not exist: " ++ eo.type))
    ∧ eo.type.data <:+: ("edge type does not exist: " ++ eo.type).data := by
  obtain ⟨h₁, h₂, h₃⟩ :
      ¬ o.type = "mx" ∧ ¬ o.type = "static" ∧ ¬ o.type = "maildrop" := by
    simpa [not_or] using ht
  refine ⟨?_, ?_, ?_, ?_, ?_, ?_⟩
  · unfold _start_relay
    rw [hm]
    simp [effOpts, h₁, h₂, h₃]
  · rw [String.data_append]
    exact (List.suffix_append _ _).isInfix
  · unfold _start_queue
    rw [hmq]
    simp [effOpts, hqt, hq₁, hq₂]
  · rw [String.data_append]
    exact (List.suffix_append _ _).isInfix
  · unfold _start_edge
    rw [hme]
    simp [effOpts, hte]
  · rw [String.data_append]
    exact (List.suffix_append _ _).isInfix

/-- Witness for the amended C8 at concrete unknown relay, queue and edge
types. -/
theorem unknown_type_error_names_type_witness :
    _start_relay wState0 "r1" (some { type := "bogus" }) =
      .error (.configError ("relay type does not exist: " ++ "bogus"))
    ∧ "bogus".data <:+: ("relay type does not exist: " ++ "bogus").data
    ∧ _start_queue wState0 "r1" (some { type := some "qbogus" }) =
      .error (.configError ("queue type does not exist: " ++ "qbogus"))
    ∧ "qbogus".data <:+: ("queue type does not exist: " ++ "qbogus").data
    ∧ _start_edge wState0 "r1" (some { type := "weird" }) =
      .error (.configError ("edge type does not exist: " ++ "weird"))
    ∧ "weird".data <:+: ("edge type does not exist: " ++ "weird").data :=
  unknown_type_error_names_type wState0 "r1" { type := "bogus" }
    { type := some "qbogus" } "qbogus" { type := "weird" } (by rfl)
    (by decide) (by rfl) (by rfl) (by decide) (by decide) (by rfl) (by decide)

/-- Counterexamples to C9, which promised for every edge section a
queue-name error or a built, started, returned edge.  Three concrete edge
sections violate it: one of unknown type with a queue name given (fatal
type error instead of an edge), an `smtp` one with an empty listener list
(index error raised by `listeners[0]` before the queue-name check, even
though a queue name is given), and an `smtp` one whose named queue section
has an unknown type (the queue builder's error propagates instead of an
edge being returned). -/
theorem edge_unknown_type_not_built :
    _start_edge wState0 "e"
      (some { type := "bogus", listeners := [{}], queue := some "q" }) =
      .error (.configError "edge type does not exist: bogus")
    ∧ _start_edge wState0 "e"
        (some { type := "smtp", listeners := [], queue := some "q" }) =
      .error .indexError
    ∧ _start_edge wStateBQ "e"
        (some { type := "smtp", listeners := [{}], queue := some "badq" }) =
      .error (.configError "queue type does not exist: bogustype") :=
  ⟨rfl, rfl, rfl⟩

/-- Claim C9 (amended): for every edge section: building the edge raises a
fatal configuration error naming the type when the declared type is not
`smtp`; for an `smtp` section it raises an index error when the listener
list is empty (before the queue-name check), raises a fatal configuration
error if no queue name is given (absent or empty), and propagates the queue
builder's error when obtaining the queue fails; otherwise it obtains the
queue via the memoized `_start_queue`, binds the edge to the first
listener's interface and port defaulting to `127.0.0.1` and `25` when
absent, starts it, memoizes and returns it; a subsequent call with the same
name returns the identical instance with no further side effects. -/
theorem start_edge_spec (st : SlimtaState) (name : String) (o : EdgeOptions)
    (hm : dictGet st.edges name = none) :
    (¬ o.type = "smtp" →
      _start_edge st name (some o) =
        .error (.configError ("edge type does not exist: " ++ o.type)))
    ∧ (o.type = "smtp" → o.listeners = [] →
      _start_edge st name (some o) = .error .indexError)
    ∧ (∀ (l₀ : Listener) (ls : List Listener),
        o.type = "smtp" → o.listeners = l₀ :: ls →
        (o.queue = none ∨ o.queue = some "" →
          _start_edge st name (some o) =
            .error (.configError "edge sections must be given a queue name"))
        ∧ (∀ (queueName : String) (err : Err),
            o.queue = some queueName → ¬ queueName = "" →
            _start_queue st queueName none = .error err →
            _start_edge st name (some o) = .error err)
        ∧ (∀ (queueName : String) (q : Option Queue) (st₂ : SlimtaState),
            o.queue = some queueName → ¬ queueName = "" →
            _start_queue st queueName none = .ok (q, st₂) →
            _start_edge st name (some o) =
              .ok (Edge.smtp st₂.nextId (l₀.interface.getD "127.0.0.1")
                     (l₀.port.getD 25) q true,
                   { st₂ with
                     edges := dictSet st₂.edges name
                       (Edge.smtp st₂.nextId (l₀.interface.getD "127.0.0.1")
                         (l₀.port.getD 25) q true),
                     nextId := st₂.nextId + 1 })))
    ∧ (∀ (o₂ : Option EdgeOptions) (e : Edge) (st₂ : SlimtaState),
        _start_edge st name (some o) = .ok (e, st₂) →
        _start_edge st₂ name o₂ = .ok (e, st₂)) := by
  refine ⟨?_, ?_, ?_, ?_⟩
  · intro hts
    unfold _start_edge
    rw [hm]
    simp [effOpts, hts]
  · intro ht hl
    unfold _start_edge
    rw [hm]
    simp [effOpts, ht, hl]
  · intro l₀ ls ht hl
    refine ⟨?_, ?_, ?_⟩
    · intro hq
      unfold _start_edge
      rw [hm]
      rcases hq with hq | hq <;> simp [effOpts, ht, hl, hq]
    · intro queueName err hq hqn hsq
      unfold _start_edge
      rw [hm]
      simp [effOpts, ht, hl, hq, hqn, hsq]
    · intro queueName q st₂ hq hqn hsq
      unfold _start_edge
      rw [hm]
      simp [effOpts, ht, hl, hq, hqn, hsq]
  · intro o₂ e st₂ h
    have he := start_edge_sets h
    unfold _start_edge
    rw [he]

/-- Witness for the amended C9: a concrete smtp edge over the default queue
`q` binds to `127.0.0.1:25`, starts, and is memoized. -/
theorem start_edge_spec_witness :
    _start_edge wState0 "e" (some wEdgeOpts) =
      .ok (Edge.smtp wStateQ.nextId "127.0.0.1" 25 none true,
           { wStateQ with
             edges := dictSet wStateQ.edges "e"
               (Edge.smtp wStateQ.nextId "127.0.0.1" 25 none true),
             nextId := wStateQ.nextId + 1 }) :=
  ((start_edge_spec wState0 "e" wEdgeOpts (by rfl)).2.2.1 {} [] (by rfl)
    (by rfl)).2.2 "q" none wStateQ (by rfl) (by decide) (by rfl)

/-- Claim C10: a `reject_spam` section declaring a type other than
`spamassassin` constructs no scanner (and the construction raises no
error), so `reject_spam` returns false for every message: the unknown
scanner type silently disables spam rejection instead of failing at
startup. -/
theorem unknown_scanner_type_disables_reject_spam (options : SpamConfig)
    (t : String) (ht : options.type = some t) (hne : ¬ t = "spamassassin") :
    _get_scanner (some options) = none
    ∧ (∀ (fqdn hostname : String) (rules : RulesConfig),
        rules.reject_spam = some options →
        (RuleHelpers.build fqdn hostname { rules := some rules }).scanner =
          none
        ∧ ∀ (scan : Scanner → String → Bool × String) (data : String),
            (RuleHelpers.build fqdn hostname
              { rules := some rules }).reject_spam scan data = false) := by
  have hsc : _get_scanner (some options) = none := by
    unfold _get_scanner
    simp [ht, hne]
  refine ⟨hsc, ?_⟩
  intro fqdn hostname rules hr
  have hbuild : (RuleHelpers.build fqdn hostname
      { rules := some rules }).scanner = none := by
    simp [RuleHelpers.build, hr, hsc]
  refine ⟨hbuild, fun scan data => ?_⟩
  unfold RuleHelpers.reject_spam
  rw [hbuild]

/-- Witness for C10 at the concrete scanner type `clamav`. -/
theorem unknown_scanner_type_disables_reject_spam_witness :
    wRH10.reject_spam (fun _ _ => (true, "spam")) "DATA" = false :=
  ((unknown_scanner_type_disables_reject_spam { type := some "clamav" }
      "clamav" (by rfl) (by decide)).2 "fq" "hn" wSpamRules (by rfl)).2
    (fun _ _ => (true, "spam")) "DATA"
